import Mathlib

/-!
Verification of the stage supervisor in `src/slam.py` (class `SLAM`).

Shallow embedding. Each stage body (`tracking`, `global_ba`,
`multiview_filtering`, `gaussian_mapping`, `visualizing`, `show_stream`) is
modelled as the list of shared-counter / SharedState events it emits in one
completed execution; loop iteration counts and conditions that depend on the
other processes (how often a polling loop ran before it observed its exit
condition, whether the backend instance was present in a given iteration) are
explicit parameters of the trace functions.  The memory safeguard
(`ram_safeguard_backend`) is modelled as a state transformer over the
present/absent backend instance, with the Python attribute lookup `self.args`
(line 230) modelled as an `Option` that is `none` because no statement in
`slam.py` ever assigns `self.args`.
-/

namespace SlamSpec

/-- The run-flags of the configuration surface read by `SLAM.run`
(lines 477-482) plus the evaluation switch (line 109). -/
structure Config where
  show_stream : Bool
  run_backend : Bool
  run_multiview_filter : Bool
  run_visualization : Bool
  run_mapping : Bool
  evaluate : Bool
deriving DecidableEq, Repr

/-- One record of the input stream: `(timestamp, image, depth, intrinsic,
gt_pose)` at line 193.  Only the timestamp is relevant to the supervisor. -/
structure Frame where
  timestamp : Nat
deriving DecidableEq, Repr

/-- The six stage units launched by `SLAM.run` (lines 475-483). -/
inductive StageId
  | stream_display
  | tracking_
  | backend_
  | multiview
  | visualizing_
  | mapping_
deriving DecidableEq, Repr

/-- The checkpoint written by `SLAM.save_state` (lines 427-436): a dict with
exactly the keys `tracking_net` (the network weights, modelled as an opaque
handle) and `keyframe_timestamps` (`self.video.timestamp`). -/
structure Checkpoint where
  tracking_net : Nat
  keyframe_timestamps : List Nat
deriving DecidableEq, Repr

/-- Events emitted by the stage bodies and the supervisor. -/
inductive Ev
  /-- `self.all_trigered += 1` on stage entry. -/
  | incTriggered
  /-- Exit of the poll loop `while self.all_trigered < self.num_running_thread`
  (lines 189-190): the unit observed `triggered >= expected_unit_count`. -/
  | barrierExit
  /-- `input_queue.put(...)` in `tracking` (lines 199-200). -/
  | queuePut
  /-- A SharedState-affecting collaborator call made by stage `s`
  (`self.frontend(...)`, `self.backend(...)`, `self.multiview_filter()`,
  `self.gaussian_mapper(...)`, `droid_visualization(...)`). -/
  | sharedWork (s : StageId)
  /-- Invocation of `self.ram_safeguard_backend(...)` (line 240). -/
  | ramCheck
  /-- One `sleep(1.0)` iteration of `while self.hang_on > 0` (lines 280-281). -/
  | pauseWait
  /-- `self.<stage>_finished += 1` in the epilogue of stage `s`. -/
  | incFlag (s : StageId)
  /-- `self.all_finished += 1` in a stage epilogue. -/
  | incAllFinished
  /-- One rendering iteration of `show_stream`. -/
  | render
  /-- Exit of the supervisor wait loop (line 490) with the recorded
  observation: was the mapping queue non-empty, and was
  `all_finished >= num_running_thread`. -/
  | waitExit (queueNonempty allFinishedGe : Bool)
  /-- The unconditional `self.mapping_queue.get()` at line 500. -/
  | queueGetAttempt
  /-- The blocking wait on the named process (lines 442-444). -/
  | joinProc (name : Nat)
  /-- `self.save_state()` persisting the checkpoint (line 447). -/
  | saveCheckpoint (c : Checkpoint)
  /-- `self.evaluate(stream, gaussian_mapper_last_state)` (line 451). -/
  | evalCall (stream : List Frame) (payload : Nat)
deriving DecidableEq, Repr

/-! ## ResourceGuard (`ram_safeguard_backend`, lines 208-231) -/

/-- Minimal model of the backend instance: we only track which configuration
handle it was constructed from. -/
structure BackendInst where
  cfgHandle : Nat
deriving DecidableEq, Repr

/-- The attributes of the `SLAM` object read by `ram_safeguard_backend`.
`cfg` is set in `__init__` (line 61); `args` is modelled as an `Option`
that stays `none` because no statement in `slam.py` assigns `self.args`;
`backend` is the optional instance (line 105 / lines 221-231). -/
structure SlamAttrs where
  cfg : Nat
  args : Option Nat
  backend : Option BackendInst
deriving DecidableEq, Repr

/-- The `SLAM` object right after `__init__`: `self.backend =
BackendWrapper(cfg, self)` at line 105, and `self.args` never assigned. -/
def slamInit : SlamAttrs := { cfg := 0, args := none, backend := some { cfgHandle := 0 } }

/-- A Python `AttributeError`, raised when an attribute that was never
assigned is read. -/
inductive PyError
  | attributeError
deriving DecidableEq, Repr

/-- Destruction / reconstruction events of the optional backend instance. -/
inductive GuardEv
  | destroy
  | recreate
deriving DecidableEq, Repr

deriving instance DecidableEq for Except

/-- `SLAM.ram_safeguard_backend(max_ram, min_ram)` (lines 213-231) at one
sampled memory-usage fraction `used_mem`:

* lines 218-224: if `used_mem > max_ram` and the instance is present,
  delete it (`del self.backend; self.backend = None`);
* lines 228-231: if the instance is absent and `used_mem <= min_ram`,
  reconstruct it via `BackendWrapper(self.cfg, self.args, self)` — reading
  `self.args` raises `AttributeError` because it was never assigned.

Returns the guard events emitted and either the updated attributes or the
raised error. -/
def ram_safeguard_backend (s : SlamAttrs) (used_mem max_ram min_ram : ℚ) :
    List GuardEv × Except PyError SlamAttrs :=
  let step1 :=
    if used_mem > max_ram ∧ s.backend.isSome then
      ({ s with backend := none }, [GuardEv.destroy])
    else (s, [])
  let s1 := step1.1
  let evs1 := step1.2
  if s1.backend = none ∧ used_mem ≤ min_ram then
    match s1.args with
    | none => (evs1, Except.error PyError.attributeError)
    | some a =>
        (evs1 ++ [GuardEv.recreate],
         Except.ok { s1 with backend := some { cfgHandle := a } })
  else (evs1, Except.ok s1)

/-- Iterate `ram_safeguard_backend` over a sequence of sampled memory-usage
fractions, accumulating the guard events; stops at the first raised error. -/
def guardRun (max_ram min_ram : ℚ) : SlamAttrs → List ℚ →
    List GuardEv × Except PyError SlamAttrs
  | s, [] => ([], Except.ok s)
  | s, u :: us =>
    match ram_safeguard_backend s u max_ram min_ram with
    | (evs, Except.error e) => (evs, Except.error e)
    | (evs, Except.ok s1) =>
        let rest := guardRun max_ram min_ram s1 us
        (evs ++ rest.1, rest.2)

/-! ## Stage bodies as event traces

Each function below is the trace of events one stage process emits in a
completed execution, translated from the corresponding method of `SLAM`.
Loop iteration counts (and, for `global_ba`, whether the backend instance
was present after the ram check of an iteration) depend on the concurrent
progress of the other processes and are therefore explicit parameters. -/

/-- Events of one iteration of the `for frame in tqdm(stream)` loop of
`tracking` (lines 192-202): two `input_queue.put` calls when
`cfg.show_stream` is set (lines 197-200), then the `self.frontend(...)`
call (line 202). -/
def frameEvs (showStream : Bool) (_f : Frame) : List Ev :=
  (if showStream then [Ev.queuePut, Ev.queuePut] else []) ++ [Ev.sharedWork StageId.tracking_]

/-- `SLAM.tracking` (lines 182-206): increment `all_trigered` (line 186),
spin until `all_trigered >= num_running_thread` (lines 189-190), loop over
the stream (lines 192-202), then `tracking_finished += 1` and
`all_finished += 1` (lines 204-205). -/
def trackingTrace (showStream : Bool) (stream : List Frame) : List Ev :=
  [Ev.incTriggered, Ev.barrierExit]
    ++ (stream.map (frameEvs showStream)).flatten
    ++ [Ev.incFlag StageId.tracking_, Ev.incAllFinished]

/-- One iteration of the `global_ba` work loop (lines 237-246): the
`ram_safeguard_backend` call (line 240), then — when the backend instance
is present (`present`) — the `self.backend(...)` call (lines 241-245). -/
def globalBaIter (present : Bool) : List Ev :=
  Ev.ramCheck :: (if present then [Ev.sharedWork StageId.backend_] else [])

/-- `SLAM.global_ba` (lines 233-260): increment `all_trigered` (line 235);
while `tracking_finished < 1 and run`, do one `globalBaIter`
(`iters` records the backend presence per observed iteration); if
`run and self.backend is not None` (`finalPresent`), two final
`dense_ba` passes (lines 249-256); then `backend_finished += 1`,
`all_finished += 1` (lines 258-259).  There is no startup-barrier poll in
this method. -/
def globalBaTrace (run : Bool) (iters : List Bool) (finalPresent : Bool) : List Ev :=
  [Ev.incTriggered]
    ++ (if run then
          (iters.map globalBaIter).flatten
            ++ (if finalPresent then
                  [Ev.sharedWork StageId.backend_, Ev.sharedWork StageId.backend_]
                else [])
        else [])
    ++ [Ev.incFlag StageId.backend_, Ev.incAllFinished]

/-- `SLAM.multiview_filtering` (lines 263-272): increment `all_trigered`;
while `(tracking_finished < 1 or backend_finished < 1) and run`, call
`self.multiview_filter()` (`n` observed iterations); then
`multiview_filtering_finished += 1`, `all_finished += 1`. -/
def multiviewTrace (run : Bool) (n : Nat) : List Ev :=
  [Ev.incTriggered]
    ++ (if run then List.replicate n (Ev.sharedWork StageId.multiview) else [])
    ++ [Ev.incFlag StageId.multiview, Ev.incAllFinished]

/-- `SLAM.visualizing` (lines 293-302): increment `all_trigered`; while
`(tracking_finished < 1 or backend_finished < 1) and run`, call
`droid_visualization(...)`; then `visualizing_finished += 1`,
`all_finished += 1`. -/
def visualizingTrace (run : Bool) (n : Nat) : List Ev :=
  [Ev.incTriggered]
    ++ (if run then List.replicate n (Ev.sharedWork StageId.visualizing_) else [])
    ++ [Ev.incFlag StageId.visualizing_, Ev.incAllFinished]

/-- One iteration of the first `gaussian_mapping` loop (lines 279-282):
`waits` iterations of `while self.hang_on > 0: sleep(1.0)`, then the
`self.gaussian_mapper(...)` call. -/
def gmIter (waits : Nat) : List Ev :=
  List.replicate waits Ev.pauseWait ++ [Ev.sharedWork StageId.mapping_]

/-- `SLAM.gaussian_mapping` (lines 275-291): increment `all_trigered`
(line 277); while `tracking_finished < 1 and run`, one `gmIter` per
observed iteration; then while `not finished and run`, call the mapper
with `the_end=True` until it reports completion (`finalTries` failing
calls and one succeeding call, lines 285-287); then
`gaussian_mapping_finished += 1`, `all_finished += 1` (lines 289-290). -/
def gaussianMappingTrace (run : Bool) (loop1 : List Nat) (finalTries : Nat) : List Ev :=
  [Ev.incTriggered]
    ++ (if run then
          (loop1.map gmIter).flatten
            ++ List.replicate (finalTries + 1) (Ev.sharedWork StageId.mapping_)
        else [])
    ++ [Ev.incFlag StageId.mapping_, Ev.incAllFinished]

/-- `SLAM.show_stream` (lines 304-341): increment `all_trigered`
(line 306); while `(tracking_finished < 1 or backend_finished < 1) and run`,
one display iteration (lines 308-338); then `all_finished += 1` (line 340).
Note: this epilogue increments no per-stage finished flag. -/
def showStreamTrace (run : Bool) (n : Nat) : List Ev :=
  [Ev.incTriggered]
    ++ (if run then List.replicate n Ev.render else [])
    ++ [Ev.incAllFinished]

/-! ## The shared completion counters -/

/-- The shared finished counters created in `__init__` (lines 79-90),
all zero at start. -/
structure Counters where
  all_finished : Nat
  tracking_finished : Nat
  backend_finished : Nat
  multiview_filtering_finished : Nat
  gaussian_mapping_finished : Nat
  visualizing_finished : Nat
deriving DecidableEq, Repr

/-- Initial counter values (`torch.zeros((1)).int()`, lines 79-90). -/
def Counters.init : Counters := ⟨0, 0, 0, 0, 0, 0⟩

/-- The per-stage flag increment `self.<stage>_finished += 1`.  The
stream-display unit has no per-stage finished counter in the source, so
`StageId.stream_display` leaves the state unchanged (no such increment
exists to model). -/
def applyFlag (c : Counters) : StageId → Counters
  | StageId.tracking_ => { c with tracking_finished := c.tracking_finished + 1 }
  | StageId.backend_ => { c with backend_finished := c.backend_finished + 1 }
  | StageId.multiview =>
      { c with multiview_filtering_finished := c.multiview_filtering_finished + 1 }
  | StageId.mapping_ =>
      { c with gaussian_mapping_finished := c.gaussian_mapping_finished + 1 }
  | StageId.visualizing_ => { c with visualizing_finished := c.visualizing_finished + 1 }
  | StageId.stream_display => c

/-- Effect of one event on the shared counters: only the epilogue
increments touch them. -/
def applyEv (c : Counters) : Ev → Counters
  | Ev.incAllFinished => { c with all_finished := c.all_finished + 1 }
  | Ev.incFlag s => applyFlag c s
  | _ => c

/-- Run a list of events over the counters. -/
def applyTrace (c : Counters) (tr : List Ev) : Counters :=
  tr.foldl applyEv c

/-- Sum of the five individual per-stage finished flags (the flags that
exist in `__init__`, lines 81-90). -/
def flagSum (c : Counters) : Nat :=
  c.tracking_finished + c.backend_finished + c.multiview_filtering_finished
    + c.gaussian_mapping_finished + c.visualizing_finished

/-! ## Supervisor (`SLAM.run`, lines 472-513) -/

/-- The six processes launched by `run` (lines 475-483), with the run-flag
each is launched with.  The list is built unconditionally: disabled stages
are still launched, with `run = False`. -/
def processList (cfg : Config) : List (String × Bool) :=
  [("OpenCV Stream", cfg.show_stream),
   ("Frontend Tracking", true),
   ("Backend", cfg.run_backend),
   ("Multiview Filtering", cfg.run_multiview_filter),
   ("Visualizing", cfg.run_visualization),
   ("Gaussian Mapping", cfg.run_mapping)]

/-- `self.num_running_thread[0] += len(processes)` (line 485), starting
from the zero initialised in `__init__` (line 75). -/
def numRunningThreadAfterLaunch (cfg : Config) : Nat :=
  0 + (processList cfg).length

/-- Guard of the supervisor wait loop (line 490):
`while self.mapping_queue.empty() and self.all_finished < self.num_running_thread`.
`True` means the loop keeps spinning. -/
def runWaitContinues (queueEmpty : Bool) (allFinished numRunningThread : Nat) : Bool :=
  queueEmpty && decide (allFinished < numRunningThread)

/-- The short-circuit inside the second wait loop (lines 505-509):
`if self.num_running_thread == 1 and self.tracking_finished > 0: break`. -/
def secondWaitBreak (numRunningThread trackingFinished : Nat) : Bool :=
  numRunningThread == 1 && decide (trackingFinished > 0)

/-- The configuration of the frontend-only scenario: every optional stage
disabled and evaluation off. -/
def frontendOnlyCfg : Config :=
  { show_stream := false, run_backend := false, run_multiview_filter := false,
    run_visualization := false, run_mapping := false, evaluate := false }

/-- A synthetic input stream of `n` records with timestamps `0, ..., n-1`. -/
def streamOf (n : Nat) : List Frame :=
  (List.range n).map Frame.mk

/-- Concatenation of the event traces of the six units launched by `run`
(lines 475-483), each driven by its run-flag from the configuration. -/
def fullRunUnitEvents (cfg : Config) (stream : List Frame) (ssIters : Nat)
    (baIters : List Bool) (baFinal : Bool) (mvIters visIters : Nat)
    (gmLoop1 : List Nat) (gmFinal : Nat) : List Ev :=
  showStreamTrace cfg.show_stream ssIters
    ++ trackingTrace cfg.show_stream stream
    ++ globalBaTrace cfg.run_backend baIters baFinal
    ++ multiviewTrace cfg.run_multiview_filter mvIters
    ++ visualizingTrace cfg.run_visualization visIters
    ++ gaussianMappingTrace cfg.run_mapping gmLoop1 gmFinal

/-- `SLAM.run` (lines 472-513) in the frontend-only configuration.  All six
processes are launched (lines 475-483); with `run_mapping = False` the
gaussian mapper is never invoked, so nothing is ever put on
`mapping_queue`; the wait loop (line 490) exits once all six units have
incremented `all_finished`; the unconditional `mapping_queue.get()`
(line 500) then blocks forever on the empty queue, so `terminate` — and
with it `save_state` — is never reached (the source marks the
`save_state()` call with the comment `this is not reached`, line 447).
The second component is the persisted checkpoint: `none` means the run
never terminates and nothing is persisted. -/
def runFrontendOnly (stream : List Frame) : List Ev × Option Checkpoint :=
  let unitEvs := fullRunUnitEvents frontendOnlyCfg stream 0 [] false 0 0 [] 0
  (unitEvs ++ [Ev.waitExit false true, Ev.queueGetAttempt], none)

/-! ## Startup-barrier ordering -/

/-- Is an event a SharedState-affecting action? -/
def sharedStateAffecting : Ev → Bool
  | Ev.sharedWork _ => true
  | _ => false

/-- A unit trace respects the startup barrier when no SharedState-affecting
event occurs before the unit has observed `triggered >= expected_unit_count`
(a `barrierExit` event). -/
def barrierRespected : List Ev → Bool
  | [] => true
  | e :: rest =>
      if e = Ev.barrierExit then true
      else if sharedStateAffecting e then false
      else barrierRespected rest

/-! ## Shutdown (`SLAM.terminate` and `SLAM.save_state`) -/

/-- `SLAM.save_state` (lines 427-436): the persisted checkpoint holds
exactly the network weights (`self.net.state_dict()`) and the SharedState
record timestamps (`self.video.timestamp`). -/
def save_state (net : Nat) (videoTimestamps : List Nat) : Checkpoint :=
  { tracking_net := net, keyframe_timestamps := videoTimestamps }

/-- `SLAM.terminate` (lines 438-454): join every launched process in list
order (lines 442-444 — a blocking wait with no timeout argument), then
`save_state()` (line 447), then — iff `self.do_evaluate` — the single
`self.evaluate(stream, gaussian_mapper_last_state)` call (lines 449-451). -/
def terminate (doEvaluate : Bool) (procs : List Nat) (net : Nat)
    (videoTimestamps : List Nat) (stream : List Frame) (payload : Nat) : List Ev :=
  procs.map Ev.joinProc
    ++ [Ev.saveCheckpoint (save_state net videoTimestamps)]
    ++ (if doEvaluate then [Ev.evalCall stream payload] else [])

/-! ## The `show_stream` display loop body (lines 308-338) -/

/-- An arbitrary Python exception raised inside rendering work. -/
inductive PyExn
  | exn (code : Nat)
deriving DecidableEq, Repr

/-- One iteration of the `show_stream` loop (lines 308-338).
`renderBody` is the outcome of the guarded work (the two `input_queue.get`
calls and the `cv2` rendering, lines 311-321); `uncBody` is the outcome of
the uncertainty plotting (lines 329-338), which sits outside the
`try`/`except`.  The handler (lines 322-326) is `except Exception as e:
pass` — the two logging `print` statements are commented out — so a raised
`renderBody` exception is swallowed with nothing printed and the loop
proceeds.  Returns `Except.error e` only if an exception escapes the
iteration; otherwise `Except.ok` with the list of messages printed. -/
def showStreamIteration (queueNonempty plotUncertainty : Bool)
    (renderBody uncBody : Except PyExn Unit) : Except PyExn (List String) :=
  let printed : List String :=
    if queueNonempty then
      match renderBody with
      | Except.ok _ => []
      | Except.error _ => []
    else []
  if plotUncertainty then
    match uncBody with
    | Except.ok _ => Except.ok printed
    | Except.error e => Except.error e
  else Except.ok printed

/-! ## Ingest backpressure (cooperative pause contract) -/

/-- Modelled from the spec: the checkpoint logic that raises the shared
pause flag lives in the Frontend collaborator (`FrontendWrapper`, imported
at line 33 but not part of the supervisor source); `slam.py` only declares
the shared `hang_on` flag (lines 119-120) and consumes it (lines 280-281).
Per spec §4.5, at every caller-configured checkpoint (each `interval`-th
record, excluding record 0) Ingest raises the flag and busy-waits with a
fixed delay until the external controller clears it.  `busyWaitPolls d`
counts the poll iterations until a controller that clears the flag after
`d` steps lets ingestion proceed. -/
def busyWaitPolls : Nat → Nat
  | 0 => 0
  | d + 1 => busyWaitPolls d + 1

/-- Modelled from the spec: ingestion of a stream with cooperative
backpressure.  For each record (indexed from 0) the result pairs the record
index with the number of poll steps ingestion stalled there: at a
checkpoint (`idx % interval == 0`, `idx ≠ 0`) it stalls for the external
controller's clearing delay, elsewhere it does not stall. -/
def ingestBackpressure (interval controllerDelay : Nat) : Nat → List Frame → List (Nat × Nat)
  | _, [] => []
  | idx, _f :: rest =>
      (idx, if idx ≠ 0 ∧ idx % interval = 0 then busyWaitPolls controllerDelay else 0)
        :: ingestBackpressure interval controllerDelay (idx + 1) rest

/-! ## Helper lemmas -/

theorem applyTrace_append (c : Counters) (l1 l2 : List Ev) :
    applyTrace c (l1 ++ l2) = applyTrace (applyTrace c l1) l2 := by
  simp [applyTrace, List.foldl_append]

theorem applyTrace_replicate_neutral (e : Ev) (h : ∀ d, applyEv d e = d) :
    ∀ (n : Nat) (c : Counters), applyTrace c (List.replicate n e) = c := by
  intro n
  induction n with
  | zero => intro c; rfl
  | succ k ih =>
      intro c
      simp only [List.replicate_succ]
      show applyTrace (applyEv c e) (List.replicate k e) = c
      rw [h c]; exact ih c

theorem applyTrace_frameEvs (c : Counters) (ss : Bool) (f : Frame) :
    applyTrace c (frameEvs ss f) = c := by
  cases ss <;> rfl

theorem applyTrace_frames (ss : Bool) :
    ∀ (stream : List Frame) (c : Counters),
      applyTrace c ((stream.map (frameEvs ss)).flatten) = c := by
  intro stream
  induction stream with
  | nil => intro c; rfl
  | cons f rest ih =>
      intro c
      simp only [List.map_cons, List.flatten_cons, applyTrace_append,
        applyTrace_frameEvs]
      exact ih c

theorem applyTrace_globalBaIter (c : Counters) (b : Bool) :
    applyTrace c (globalBaIter b) = c := by
  cases b <;> rfl

theorem applyTrace_baIters :
    ∀ (iters : List Bool) (c : Counters),
      applyTrace c ((iters.map globalBaIter).flatten) = c := by
  intro iters
  induction iters with
  | nil => intro c; rfl
  | cons b rest ih =>
      intro c
      simp only [List.map_cons, List.flatten_cons, applyTrace_append,
        applyTrace_globalBaIter]
      exact ih c

theorem applyTrace_gmIter (c : Counters) (w : Nat) :
    applyTrace c (gmIter w) = c := by
  simp only [gmIter, applyTrace_append]
  rw [applyTrace_replicate_neutral Ev.pauseWait (fun d => rfl)]
  rfl

theorem applyTrace_gmLoop :
    ∀ (loop1 : List Nat) (c : Counters),
      applyTrace c ((loop1.map gmIter).flatten) = c := by
  intro loop1
  induction loop1 with
  | nil => intro c; rfl
  | cons w rest ih =>
      intro c
      simp only [List.map_cons, List.flatten_cons, applyTrace_append,
        applyTrace_gmIter]
      exact ih c

theorem showStream_effect (run : Bool) (n : Nat) (c : Counters) :
    applyTrace c (showStreamTrace run n)
      = { c with all_finished := c.all_finished + 1 } := by
  cases run <;>
    simp only [showStreamTrace, if_true, if_false, applyTrace_append,
      applyTrace_replicate_neutral Ev.render (fun d => rfl)] <;> rfl

theorem tracking_effect (ss : Bool) (stream : List Frame) (c : Counters) :
    applyTrace c (trackingTrace ss stream)
      = { c with all_finished := c.all_finished + 1,
                 tracking_finished := c.tracking_finished + 1 } := by
  simp only [trackingTrace, applyTrace_append]
  rw [show applyTrace c [Ev.incTriggered, Ev.barrierExit] = c from rfl,
    applyTrace_frames]
  rfl

theorem globalBa_effect (run : Bool) (iters : List Bool) (fp : Bool) (c : Counters) :
    applyTrace c (globalBaTrace run iters fp)
      = { c with all_finished := c.all_finished + 1,
                 backend_finished := c.backend_finished + 1 } := by
  cases run <;> cases fp <;>
    simp only [globalBaTrace, if_true, if_false, applyTrace_append,
      applyTrace_baIters] <;> rfl

theorem multiview_effect (run : Bool) (n : Nat) (c : Counters) :
    applyTrace c (multiviewTrace run n)
      = { c with all_finished := c.all_finished + 1,
                 multiview_filtering_finished := c.multiview_filtering_finished + 1 } := by
  cases run <;>
    simp only [multiviewTrace, if_true, if_false, applyTrace_append,
      applyTrace_replicate_neutral (Ev.sharedWork StageId.multiview) (fun d => rfl)] <;>
    rfl

theorem visualizing_effect (run : Bool) (n : Nat) (c : Counters) :
    applyTrace c (visualizingTrace run n)
      = { c with all_finished := c.all_finished + 1,
                 visualizing_finished := c.visualizing_finished + 1 } := by
  cases run <;>
    simp only [visualizingTrace, if_true, if_false, applyTrace_append,
      applyTrace_replicate_neutral (Ev.sharedWork StageId.visualizing_) (fun d => rfl)] <;>
    rfl

theorem gaussianMapping_effect (run : Bool) (loop1 : List Nat) (ft : Nat) (c : Counters) :
    applyTrace c (gaussianMappingTrace run loop1 ft)
      = { c with all_finished := c.all_finished + 1,
                 gaussian_mapping_finished := c.gaussian_mapping_finished + 1 } := by
  cases run <;>
    simp only [gaussianMappingTrace, if_true, if_false, applyTrace_append,
      applyTrace_gmLoop,
      applyTrace_replicate_neutral (Ev.sharedWork StageId.mapping_) (fun d => rfl)] <;>
    rfl

theorem applyEv_flags_mono (c : Counters) (e : Ev) :
    c.tracking_finished ≤ (applyEv c e).tracking_finished
  ∧ c.backend_finished ≤ (applyEv c e).backend_finished
  ∧ c.multiview_filtering_finished ≤ (applyEv c e).multiview_filtering_finished
  ∧ c.gaussian_mapping_finished ≤ (applyEv c e).gaussian_mapping_finished
  ∧ c.visualizing_finished ≤ (applyEv c e).visualizing_finished
  ∧ c.all_finished ≤ (applyEv c e).all_finished := by
  cases e <;>
    first
    | (rename_i s; cases s <;> refine ⟨?_, ?_, ?_, ?_, ?_, ?_⟩ <;>
        simp [applyEv, applyFlag])
    | (refine ⟨?_, ?_, ?_, ?_, ?_, ?_⟩ <;> simp [applyEv])

theorem fullRun_effect (cfg : Config) (stream : List Frame) (ssIters : Nat)
    (baIters : List Bool) (baFinal : Bool) (mvIters visIters : Nat)
    (gmLoop1 : List Nat) (gmFinal : Nat) (c : Counters) :
    applyTrace c (fullRunUnitEvents cfg stream ssIters baIters baFinal mvIters
        visIters gmLoop1 gmFinal)
      = { all_finished := c.all_finished + 6,
          tracking_finished := c.tracking_finished + 1,
          backend_finished := c.backend_finished + 1,
          multiview_filtering_finished := c.multiview_filtering_finished + 1,
          gaussian_mapping_finished := c.gaussian_mapping_finished + 1,
          visualizing_finished := c.visualizing_finished + 1 } := by
  simp only [fullRunUnitEvents, applyTrace_append, showStream_effect,
    tracking_effect, globalBa_effect, multiview_effect, visualizing_effect,
    gaussianMapping_effect]

theorem count_evalCall_joins (procs : List Nat) (stream : List Frame) (payload : Nat) :
    (procs.map Ev.joinProc).count (Ev.evalCall stream payload) = 0 := by
  simp [List.count_eq_zero, List.mem_map]

/-! ## Claims -/

/-- Claim C1.  The claim states that in the frontend-only configuration a
10-record run completes without invoking `ram_safeguard_backend` or
`mapping_queue.get`, persisting 10 timestamps.  On the code, the wait loop
(line 490) is followed by an unconditional `mapping_queue.get()` (line 500);
with mapping disabled no payload is ever published, so the run blocks there
forever and persists nothing: the outcome is `none`, the trace holds a
`queueGetAttempt`, and — the part of the claim the code does satisfy —
no `ramCheck` ever occurs. -/
theorem C1_frontend_only_run_blocks :
    (runFrontendOnly (streamOf 10)).2 = none
  ∧ (runFrontendOnly (streamOf 10)).1.count Ev.ramCheck = 0
  ∧ Ev.queueGetAttempt ∈ (runFrontendOnly (streamOf 10)).1 := by decide

/-- Claim C2, counterexample.  The enabled `global_ba` unit (run-flag true,
one loop iteration with the backend present) performs SharedState-affecting
work (`self.backend(...)`) although its trace contains no observation of
`triggered >= expected_unit_count`: the method has no startup-barrier poll
(lines 233-246), refuting the claim that every enabled unit polls the
barrier before SharedState work. -/
theorem C2_global_ba_ignores_barrier :
    barrierRespected (globalBaTrace true [true] false) = false := by decide

/-- Claim C2, amended.  Every unit's first action is the `triggered`
increment, and the Ingest/tracking unit — alone among the six — polls
`triggered >= expected_unit_count` before any SharedState-affecting work
(lines 186-190). -/
theorem C2_barrier_only_in_tracking (ss ss2 : Bool) (stream : List Frame)
    (n : Nat) (runB : Bool) (baIters : List Bool) (baFinal : Bool)
    (runM : Bool) (mv : Nat) (runV : Bool) (vis : Nat) (runG : Bool)
    (gmL : List Nat) (gmF : Nat) :
    barrierRespected (trackingTrace ss stream) = true
  ∧ (trackingTrace ss stream).head? = some Ev.incTriggered
  ∧ (showStreamTrace ss2 n).head? = some Ev.incTriggered
  ∧ (globalBaTrace runB baIters baFinal).head? = some Ev.incTriggered
  ∧ (multiviewTrace runM mv).head? = some Ev.incTriggered
  ∧ (visualizingTrace runV vis).head? = some Ev.incTriggered
  ∧ (gaussianMappingTrace runG gmL gmF).head? = some Ev.incTriggered := by
  refine ⟨?_, ?_, ?_, ?_, ?_, ?_, ?_⟩ <;>
    simp [trackingTrace, showStreamTrace, globalBaTrace, multiviewTrace,
      visualizingTrace, gaussianMappingTrace, barrierRespected,
      sharedStateAffecting]

/-- Claim C3.  Running the guard on the pressure sequence
`[0.95, 0.95, 0.6, 0.4, 0.95]` with watermarks `0.9`/`0.5` from the
backend-present initial state destroys the instance at the first sample,
but at the `0.4` sample the reconstruction (line 230) reads the never
assigned attribute `self.args` and raises `AttributeError`: only one
destroy event is ever emitted, the recreation fails and the final `0.95`
sample is never processed. -/
theorem C3_hysteresis_sequence_crashes :
    guardRun 0.9 0.5 slamInit [0.95, 0.95, 0.6, 0.4, 0.95]
      = ([GuardEv.destroy], Except.error PyError.attributeError) := by
  norm_num [guardRun, ram_safeguard_backend, slamInit]

/-- Claim C4.  After a destroy (`0.95`), the first sample at or below the
low watermark (`0.4 <= 0.5`) takes the reconstruction branch, which reads
`self.args` (line 230) — never assigned anywhere in the class — and raises
`AttributeError` instead of constructing a fresh backend from the original
configuration. -/
theorem C4_backend_recreation_raises :
    guardRun 0.9 0.5 slamInit [0.95, 0.4]
      = ([GuardEv.destroy], Except.error PyError.attributeError) := by
  norm_num [guardRun, ram_safeguard_backend, slamInit]

/-- Claim C5, counterexample.  With the mapping queue non-empty
(`queueEmpty = false`), `all_finished = 1` and `num_running_thread = 6`
(a state reached when the mapper publishes its payload after tracking
finished but before the other units have), the wait loop of line 490
exits — so the `mapping_queue.get()` of line 500 is reached — although
`all_finished < num_running_thread`, and the claimed frontend-only
exception does not apply (`secondWaitBreak 6 1 = false` since
`num_running_thread` is 6, not 1). -/
theorem C5_get_before_all_finished :
    runWaitContinues false 1 6 = false
  ∧ 1 < 6
  ∧ secondWaitBreak 6 1 = false := by decide

/-- Claim C5, amended.  The supervisor reaches `mapping_queue.get()`
exactly when the wait loop of line 490 exits, i.e. after observing the
queue non-empty or `all_finished >= num_running_thread`; and the
`num_running_thread == 1` short-circuit (which sits in the *second* wait
loop, lines 505-509, after the retrieval) can never fire because six
processes are always launched. -/
theorem C5_wait_exit_condition (qE : Bool) (af : Nat)
    (h : runWaitContinues qE af 6 = false) :
    (qE = false ∨ 6 ≤ af) ∧ ∀ tf, secondWaitBreak 6 tf = false := by
  constructor
  · cases qE
    · exact Or.inl rfl
    · right
      simp [runWaitContinues] at h
      omega
  · intro tf
    simp [secondWaitBreak]

/-- Claim C5, witness for the amended theorem: with the queue still empty
the loop only exits once `all_finished` reaches `num_running_thread`. -/
theorem C5_wait_exit_condition_witness :
    ((true : Bool) = false ∨ 6 ≤ 6) ∧ ∀ tf, secondWaitBreak 6 tf = false :=
  C5_wait_exit_condition true 6 (by decide)

/-- Claim C6, counterexample.  At the end of a complete frontend-only run
the aggregate `all_finished` counter is 6 while the five per-stage finished
flags sum to 5: the `show_stream` unit increments `all_finished` (line 340)
but has no per-stage flag, so the claimed equality fails. -/
theorem C6_all_finished_exceeds_flag_sum :
    (applyTrace Counters.init
        (fullRunUnitEvents frontendOnlyCfg (streamOf 10) 0 [] false 0 0 [] 0)).all_finished = 6
  ∧ flagSum (applyTrace Counters.init
        (fullRunUnitEvents frontendOnlyCfg (streamOf 10) 0 [] false 0 0 [] 0)) = 5
  ∧ (applyTrace Counters.init
        (fullRunUnitEvents frontendOnlyCfg (streamOf 10) 0 [] false 0 0 [] 0)).all_finished
      ≠ flagSum (applyTrace Counters.init
        (fullRunUnitEvents frontendOnlyCfg (streamOf 10) 0 [] false 0 0 [] 0)) := by
  decide

/-- Claim C6, amended.  Over a complete run (any configuration, any loop
iteration counts, from any starting counters) each of the five per-stage
finished flags is incremented exactly once and `all_finished` exactly six
times, so at termination `all_finished = flagSum + 1` — the extra increment
coming from the stream-display unit, which has no per-stage flag; and no
event ever decreases a finished counter (flags are never cleared). -/
theorem C6_flag_sum_plus_stream_display (cfg : Config) (stream : List Frame)
    (ssIters : Nat) (baIters : List Bool) (baFinal : Bool)
    (mvIters visIters : Nat) (gmLoop1 : List Nat) (gmFinal : Nat)
    (c : Counters) :
    (applyTrace c (fullRunUnitEvents cfg stream ssIters baIters baFinal
        mvIters visIters gmLoop1 gmFinal)).all_finished = c.all_finished + 6
  ∧ (applyTrace c (fullRunUnitEvents cfg stream ssIters baIters baFinal
        mvIters visIters gmLoop1 gmFinal)).tracking_finished = c.tracking_finished + 1
  ∧ (applyTrace c (fullRunUnitEvents cfg stream ssIters baIters baFinal
        mvIters visIters gmLoop1 gmFinal)).backend_finished = c.backend_finished + 1
  ∧ (applyTrace c (fullRunUnitEvents cfg stream ssIters baIters baFinal
        mvIters visIters gmLoop1 gmFinal)).multiview_filtering_finished
      = c.multiview_filtering_finished + 1
  ∧ (applyTrace c (fullRunUnitEvents cfg stream ssIters baIters baFinal
        mvIters visIters gmLoop1 gmFinal)).gaussian_mapping_finished
      = c.gaussian_mapping_finished + 1
  ∧ (applyTrace c (fullRunUnitEvents cfg stream ssIters baIters baFinal
        mvIters visIters gmLoop1 gmFinal)).visualizing_finished
      = c.visualizing_finished + 1
  ∧ (applyTrace Counters.init (fullRunUnitEvents cfg stream ssIters baIters
        baFinal mvIters visIters gmLoop1 gmFinal)).all_finished
      = flagSum (applyTrace Counters.init (fullRunUnitEvents cfg stream ssIters
          baIters baFinal mvIters visIters gmLoop1 gmFinal)) + 1
  ∧ ∀ (d : Counters) (e : Ev),
        d.tracking_finished ≤ (applyEv d e).tracking_finished
      ∧ d.backend_finished ≤ (applyEv d e).backend_finished
      ∧ d.multiview_filtering_finished ≤ (applyEv d e).multiview_filtering_finished
      ∧ d.gaussian_mapping_finished ≤ (applyEv d e).gaussian_mapping_finished
      ∧ d.visualizing_finished ≤ (applyEv d e).visualizing_finished := by
  refine ⟨?_, ?_, ?_, ?_, ?_, ?_, ?_, ?_⟩
  any_goals simp [fullRun_effect, Counters.init, flagSum]
  intro d e
  have h := applyEv_flags_mono d e
  exact ⟨h.1, h.2.1, h.2.2.1, h.2.2.2.1, h.2.2.2.2.1⟩

/-- Claim C7.  `terminate` first joins every launched unit in list order,
then persists the checkpoint — which holds exactly the network weights and
the SharedState record-timestamp list — and then, iff evaluation is
enabled, makes exactly one evaluation call carrying the input stream and
the handed-off payload. -/
theorem C7_terminate_order (procs : List Nat) (net : Nat) (ts : List Nat)
    (stream : List Frame) (payload : Nat) :
    terminate true procs net ts stream payload
      = procs.map Ev.joinProc
          ++ [Ev.saveCheckpoint (save_state net ts), Ev.evalCall stream payload]
  ∧ terminate false procs net ts stream payload
      = procs.map Ev.joinProc ++ [Ev.saveCheckpoint (save_state net ts)]
  ∧ (save_state net ts).tracking_net = net
  ∧ (save_state net ts).keyframe_timestamps = ts
  ∧ (terminate true procs net ts stream payload).count (Ev.evalCall stream payload) = 1
  ∧ (terminate false procs net ts stream payload).count (Ev.evalCall stream payload) = 0 := by
  refine ⟨?_, ?_, rfl, rfl, ?_, ?_⟩ <;>
    simp [terminate, List.count_append, count_evalCall_joins]

/-- Claim C8 (spec-modelled: the checkpoint logic that raises the shared
pause flag lives in the Frontend collaborator, which is outside the
supervisor source; `slam.py` only declares and consumes the `hang_on`
flag).  For a 120-record stream with checkpoint interval 50 and a
controller clearing the pause flag after 3 poll steps, ingestion stalls
for at least the controller delay exactly at record indices 50 and 100,
and every record of the stream is processed. -/
theorem C8_backpressure_stalls :
    (ingestBackpressure 50 3 0 (streamOf 120)).filter (fun p => 3 ≤ p.2)
      = [(50, 3), (100, 3)]
  ∧ (ingestBackpressure 50 3 0 (streamOf 120)).map Prod.fst = List.range 120 := by
  decide

/-- Claim C9, counterexample.  An exception raised inside the guarded
rendering work of the `show_stream` loop is caught and the iteration
completes — but the printed-message list is empty: the handler
(lines 322-326) is a bare `pass` whose logging statements are commented
out, refuting the claim that a message is printed. -/
theorem C9_exception_swallowed_silently :
    showStreamIteration true false (Except.error (PyExn.exn 0)) (Except.ok ())
      = Except.ok [] := by rfl

/-- Claim C9, amended.  Every exception raised inside the `try`-block of
the stream-display loop is caught and silently suppressed — nothing is
printed — and the iteration completes normally, so the loop continues and
the failure is never propagated out of the stage. -/
theorem C9_try_block_never_propagates (qn pu : Bool) (e : PyExn) :
    showStreamIteration qn pu (Except.error e) (Except.ok ()) = Except.ok [] := by
  cases qn <;> cases pu <;> rfl

/-- Claim C10.  `run()` always launches all six stage units — disabled
stages included, with run-flag `False` — so `num_running_thread` always
becomes 6; and a disabled-but-launched unit's whole trace is: increment
`triggered`, (for the five flag-bearing stages) set its finished flag,
and increment `all_finished` last — no SharedState work at all. -/
theorem C10_six_units_always_launched (cfg : Config) (baIters : List Bool)
    (baFinal : Bool) (mv vis n : Nat) (gmL : List Nat) (gmF : Nat) :
    (processList cfg).length = 6
  ∧ numRunningThreadAfterLaunch cfg = 6
  ∧ showStreamTrace false n = [Ev.incTriggered, Ev.incAllFinished]
  ∧ globalBaTrace false baIters baFinal
      = [Ev.incTriggered, Ev.incFlag StageId.backend_, Ev.incAllFinished]
  ∧ multiviewTrace false mv
      = [Ev.incTriggered, Ev.incFlag StageId.multiview, Ev.incAllFinished]
  ∧ visualizingTrace false vis
      = [Ev.incTriggered, Ev.incFlag StageId.visualizing_, Ev.incAllFinished]
  ∧ gaussianMappingTrace false gmL gmF
      = [Ev.incTriggered, Ev.incFlag StageId.mapping_, Ev.incAllFinished] := by
  refine ⟨rfl, rfl, rfl, rfl, rfl, rfl, rfl⟩

end SlamSpec
